import Mathlib

/-!
Verification of the precertificate issuance-record store
(`sa/precertificates.go` of the boulder repository excerpt).

The Go code is shallowly embedded: the relational datastore becomes an
explicit `DB` record of lists, each gRPC handler becomes a pure function
from a request and a database to an `Except Err DB`, and the injected
clock becomes an explicit `now : Int` parameter.  Storage faults that the
real datastore can raise at each write/read of the issuance transaction
are modelled by an explicit `TxFaults` record of optional error codes, so
that atomicity under injected failure is statable.  Helper functions of
the repository that are not part of the excerpt (`core.IsAnyNilOrZero`,
`core.SerialToString`, `core.ValidSerial`, `certStatusFields`,
`checkFQDNSetExists`, `addIssuedNames`, `addKeyHash`,
`SelectPrecertificate`, `db.WithTransaction`, `bgrpc.CertToPB`) are
modelled from the specification, each marked in its doc comment.
-/

/-- Byte strings (Go `[]byte`) are lists of naturals. -/
abbrev Bytes := List Nat

/-- The fields of a parsed X.509 certificate that `AddPrecertificate`
consults: the embedded serial number, the not-after time, the DNS
subject-alternative names, the Subject Common Name (present in the parsed
structure but deliberately never used by the code), and the public key. -/
structure ParsedCert where
  serialNumber : Nat
  notAfter : Int
  dnsNames : List String
  commonName : String
  publicKey : Bytes
deriving Repr, DecidableEq

/-- Modelled from the spec: DER-encoded certificate bytes are outside the
excerpt (`x509.ParseCertificate` is the Go standard library).  A byte
string is either empty (the zero value of a Go byte slice), malformed
junk, or the well-formed encoding of exactly one certificate. -/
inductive DER where
  | empty : DER
  | malformed : Nat → DER
  | wellFormed : ParsedCert → DER
deriving Repr, DecidableEq

/-- Modelled from the spec: `x509.ParseCertificate` decodes well-formed
DER bytes to the unique certificate they encode and fails otherwise. -/
def parseCertificate : DER → Option ParsedCert
  | .wellFormed c => some c
  | _ => none

/-- The error taxonomy of the component.  `storage` carries the opaque
code of an injected datastore fault so that "the original error is
surfaced unchanged" is statable. -/
inductive Err where
  | incompleteRequest : Err
  | parseError : DER → Err
  | duplicate : String → Err
  | notFound : String → Err
  | invalidSerial : String → Err
  | schemaMismatch : String → Err
  | storage : Nat → Err
deriving Repr, DecidableEq

/-- A row of the `serials` table (`recordedSerialModel`). -/
structure SerialRecord where
  serial : String
  registrationID : Int
  created : Int
  expires : Int
deriving Repr, DecidableEq

/-- A row of the `precertificates` table (`precertificateModel`). -/
structure PrecertRecord where
  serial : String
  registrationID : Int
  der : DER
  issued : Int
  expires : Int
deriving Repr, DecidableEq

/-- A row of the `certificateStatus` table, with the columns the insert
in `AddPrecertificate` populates. -/
structure CertStatusRecord where
  serial : String
  status : String
  ocspLastUpdated : Int
  revokedDate : Int
  revokedReason : Int
  lastExpirationNagSent : Int
  ocspResponse : Bytes
  notAfter : Int
  isExpired : Bool
  issuerID : Int
deriving Repr, DecidableEq

/-- Modelled from the spec: a row of the issued-names index, one per DNS
name per issuance, carrying the renewal classification. -/
structure IssuedNameRecord where
  name : String
  serial : String
  issuedAt : Int
  isRenewal : Bool
deriving Repr, DecidableEq

/-- Modelled from the spec: a row of the key-fingerprint index. -/
structure KeyHashRecord where
  fingerprint : Bytes
  serial : String
  issuedAt : Int
deriving Repr, DecidableEq

/-- The persistent state: the four issuance tables, the serials table,
and the FQDN-set membership index (a historical record of the name sets
of prior issuances). -/
structure DB where
  serials : List SerialRecord
  precertificates : List PrecertRecord
  certificateStatus : List CertStatusRecord
  issuedNames : List IssuedNameRecord
  keyHashes : List KeyHashRecord
  fqdnSets : List (List String)
deriving Repr, DecidableEq

/-- The empty datastore. -/
def DB.empty : DB := ⟨[], [], [], [], [], []⟩

/-- The `sapb.AddSerialRequest` message. -/
structure AddSerialRequest where
  serial : String
  regID : Int
  created : Int
  expires : Int
deriving Repr, DecidableEq

/-- The `sapb.AddCertificateRequest` message (the fields
`AddPrecertificate` reads). -/
structure AddCertificateRequest where
  der : DER
  regID : Int
  ocsp : Bytes
  issued : Int
  issuerID : Int
deriving Repr, DecidableEq

/-- Modelled from the spec: `core.IsAnyNilOrZero` on a Go string — true
exactly on the empty string. -/
def strIsZero (s : String) : Bool := s = ""

/-- Modelled from the spec: `core.IsAnyNilOrZero` on a Go int64 — true
exactly on zero. -/
def intIsZero (i : Int) : Bool := i = 0

/-- Modelled from the spec: `core.IsAnyNilOrZero` on a Go byte slice —
true exactly on a nil or empty slice. -/
def bytesIsZero (b : Bytes) : Bool := b.isEmpty

/-- Modelled from the spec: `core.IsAnyNilOrZero` on the DER byte slice —
true exactly on a nil or empty slice, which in the `DER` model is the
`empty` constructor. -/
def derIsZero : DER → Bool
  | .empty => true
  | _ => false

/-- `AddSerial` (sa/precertificates.go lines 21-35): reject if any of
created, expires, serial, regID is nil or zero; otherwise insert one
`recordedSerialModel` row.  The optional `fault` models a storage-layer
failure of the insert (e.g. a uniqueness-constraint violation). -/
def addSerial (db : DB) (req : AddSerialRequest) (fault : Option Nat) : Except Err DB :=
  if intIsZero req.created || intIsZero req.expires || strIsZero req.serial
      || intIsZero req.regID then
    .error .incompleteRequest
  else
    match fault with
    | some c => .error (.storage c)
    | none =>
        .ok { db with
          serials := db.serials
            ++ [⟨req.serial, req.regID, req.created, req.expires⟩] }

/-- The observable outcome of an `AddSerial` call: the returned error, if
any, paired with the state afterwards (on failure the insert did not
happen, so the state is the original one). -/
def addSerialRun (db : DB) (req : AddSerialRequest) (fault : Option Nat) :
    Option Err × DB :=
  match addSerial db req fault with
  | .error e => (some e, db)
  | .ok db2 => (none, db2)

/-- Modelled from the spec: `core.SerialToString` hex-encodes the
certificate's embedded serial number into a fixed-length (36 hex digit,
zero-padded) string. -/
def serialToString (n : Nat) : String :=
  let ds := Nat.toDigits 16 n
  String.mk (List.replicate (36 - ds.length) '0' ++ ds)

/-- Modelled from the spec: `certStatusFields` returns the column set of
the certificateStatus table schema — exactly the ten fields of §3's
CertificateStatusRecord. -/
def certStatusFields : List String :=
  ["serial", "status", "ocspLastUpdated", "revokedDate", "revokedReason",
   "lastExpirationNagSent", "ocspResponse", "notAfter", "isExpired", "issuerID"]

/-- A value in the candidate argument map of the certificateStatus
insert. -/
inductive FieldValue where
  | str : String → FieldValue
  | int : Int → FieldValue
  | time : Int → FieldValue
  | bytes : Bytes → FieldValue
  | bool : Bool → FieldValue
deriving Repr, DecidableEq

/-- The candidate value map built in `AddPrecertificate` (lines 80-91),
keyed as in the Go map literal, for a given status row. -/
def certStatusArgs (row : CertStatusRecord) : List (String × FieldValue) :=
  [("serial", .str row.serial),
   ("status", .str row.status),
   ("ocspLastUpdated", .time row.ocspLastUpdated),
   ("revokedDate", .time row.revokedDate),
   ("revokedReason", .int row.revokedReason),
   ("lastExpirationNagSent", .time row.lastExpirationNagSent),
   ("ocspResponse", .bytes row.ocspResponse),
   ("notAfter", .time row.notAfter),
   ("isExpired", .bool row.isExpired),
   ("issuerID", .int row.issuerID)]

/-- The fixed initial certificateStatus row seeded at issuance
(lines 80-91): status good, revocation fields zeroed, not expired, the
supplied OCSP blob and issuer ID, the certificate's not-after time, and
`ocspLastUpdated` from the store's clock. -/
def initialCertStatus (now : Int) (req : AddCertificateRequest)
    (parsed : ParsedCert) (serialHex : String) : CertStatusRecord :=
  { serial := serialHex
    status := "good"
    ocspLastUpdated := now
    revokedDate := 0
    revokedReason := 0
    lastExpirationNagSent := 0
    ocspResponse := req.ocsp
    notAfter := parsed.notAfter
    isExpired := false
    issuerID := req.issuerID }

/-- Lowercase one name (character-wise case folding, as Go
`strings.ToLower` on DNS names). -/
def lowerString (s : String) : String := String.mk (s.data.map Char.toLower)

/-- Lowercase every name (case-insensitive comparison works on the
lowercased lists). -/
def lowerNames (names : List String) : List String := names.map lowerString

/-- Boolean test that two name lists denote the same set. -/
def eqNameSets (a b : List String) : Bool :=
  a.all (fun x => b.contains x) && b.all (fun x => a.contains x)

/-- Modelled from the spec: `checkFQDNSetExists` — an issuance is
classified as a renewal when a prior issuance exists whose recorded name
set is exactly equal, compared case-insensitively, to the queried name
set. -/
def checkFQDNSetExists (db : DB) (names : List String) : Bool :=
  db.fqdnSets.any (fun prior => eqNameSets (lowerNames prior) (lowerNames names))

/-- Modelled from the spec: the key fingerprint is a derived identifier
of the certificate's public key (the hash itself is outside the
excerpt). -/
def keyFingerprint (c : ParsedCert) : Bytes := c.publicKey

/-- Injectable storage faults for the six datastore operations of the
issuance transaction, in program order. -/
structure TxFaults where
  selectCount : Option Nat
  insertPrecert : Option Nat
  insertStatus : Option Nat
  fqdnCheck : Option Nat
  insertNames : Option Nat
  insertKeyHash : Option Nat
deriving Repr, DecidableEq

/-- A fault-free environment. -/
def noFaults : TxFaults := ⟨none, none, none, none, none, none⟩

/-- Number of precertificates rows with the given serial (the
`SELECT count(1) ... WHERE serial=?` of line 65). -/
def countPrecerts (db : DB) (serialHex : String) : Nat :=
  (db.precertificates.filter (fun p => p.serial = serialHex)).length

/-- Step 1 of the transaction (lines 61-70): the duplicate check. -/
def dupCheckStep (f : Option Nat) (db : DB) (serialHex : String) : Except Err Unit :=
  match f with
  | some c => .error (.storage c)
  | none =>
      if countPrecerts db serialHex > 0 then
        .error (.duplicate "cannot add a duplicate cert")
      else .ok ()

/-- Step 2 (line 71): insert the precertificate row. -/
def insertPrecertStep (f : Option Nat) (row : PrecertRecord) (db : DB) :
    Except Err DB :=
  match f with
  | some c => .error (.storage c)
  | none => .ok { db with precertificates := db.precertificates ++ [row] }

/-- Step 3 (lines 75-103): seed the certificateStatus row.  The insert
fails at once with an internal error when the candidate value map has
more keys than the schema's column set (line 92's defensive check). -/
def insertCertStatusStep (f : Option Nat) (fields : List String)
    (row : CertStatusRecord) (db : DB) : Except Err DB :=
  match f with
  | some c => .error (.storage c)
  | none =>
      if (certStatusArgs row).length > fields.length then
        .error (.schemaMismatch "too many arguments inserting row into certificateStatus")
      else .ok { db with certificateStatus := db.certificateStatus ++ [row] }

/-- Step 4 (lines 111-116): renewal detection over only the DNS names. -/
def fqdnCheckStep (f : Option Nat) (db : DB) (dnsNames : List String) :
    Except Err Bool :=
  match f with
  | some c => .error (.storage c)
  | none => .ok (checkFQDNSetExists db dnsNames)

/-- Modelled from the spec: `addIssuedNames` (line 117) — one
IssuedNameRecord per DNS name carrying the computed renewal flag and the
issuance timestamp; the FQDN-set index is updated as a side effect of
recording issued names (§2). -/
def addIssuedNamesStep (f : Option Nat) (parsed : ParsedCert)
    (serialHex : String) (issued : Int) (isRenewal : Bool) (db : DB) :
    Except Err DB :=
  match f with
  | some c => .error (.storage c)
  | none =>
      .ok { db with
        issuedNames := db.issuedNames
          ++ parsed.dnsNames.map (fun n => ⟨n, serialHex, issued, isRenewal⟩)
        fqdnSets := db.fqdnSets ++ [parsed.dnsNames] }

/-- Modelled from the spec: `addKeyHash` (line 120) — record the
fingerprint of the certificate's public key. -/
def addKeyHashStep (f : Option Nat) (parsed : ParsedCert)
    (serialHex : String) (issued : Int) (db : DB) : Except Err DB :=
  match f with
  | some c => .error (.storage c)
  | none =>
      .ok { db with
        keyHashes := db.keyHashes ++ [⟨keyFingerprint parsed, serialHex, issued⟩] }

/-- The body of the issuance transaction (lines 60-125), threading the
transactional state through steps 1-6 in program order. -/
def addPrecertificateTx (now : Int) (req : AddCertificateRequest)
    (parsed : ParsedCert) (serialHex : String) (f : TxFaults) (db : DB) :
    Except Err DB :=
  match dupCheckStep f.selectCount db serialHex with
  | .error e => .error e
  | .ok _ =>
    match insertPrecertStep f.insertPrecert
        ⟨serialHex, req.regID, req.der, req.issued, parsed.notAfter⟩ db with
    | .error e => .error e
    | .ok db1 =>
      match insertCertStatusStep f.insertStatus certStatusFields
          (initialCertStatus now req parsed serialHex) db1 with
      | .error e => .error e
      | .ok db2 =>
        match fqdnCheckStep f.fqdnCheck db2 parsed.dnsNames with
        | .error e => .error e
        | .ok isRenewal =>
          match addIssuedNamesStep f.insertNames parsed serialHex req.issued
              isRenewal db2 with
          | .error e => .error e
          | .ok db3 => addKeyHashStep f.insertKeyHash parsed serialHex req.issued db3

/-- `AddPrecertificate` (lines 41-130): completeness check, DER parse,
then the atomic transaction.  `db.WithTransaction` is modelled from the
spec: on any error the transaction rolls back, so the error is returned
and the state is unchanged. -/
def addPrecertificate (now : Int) (db : DB) (req : AddCertificateRequest)
    (f : TxFaults) : Except Err DB :=
  if derIsZero req.der || intIsZero req.issued || intIsZero req.regID
      || intIsZero req.issuerID then
    .error .incompleteRequest
  else
    match parseCertificate req.der with
    | none => .error (.parseError req.der)
    | some parsed =>
        addPrecertificateTx now req parsed (serialToString parsed.serialNumber) f db

/-- The observable outcome of an `AddPrecertificate` call: the returned
error, if any, paired with the state afterwards (rollback on error). -/
def addPrecertificateRun (now : Int) (db : DB) (req : AddCertificateRequest)
    (f : TxFaults) : Option Err × DB :=
  match addPrecertificate now db req f with
  | .error e => (some e, db)
  | .ok db2 => (none, db2)

/-- A hexadecimal digit character. -/
def isHexChar (c : Char) : Bool :=
  (('0' ≤ c && c ≤ '9') || ('a' ≤ c && c ≤ 'f') || ('A' ≤ c && c ≤ 'F'))

/-- Modelled from the spec: `core.ValidSerial` — a well-formed serial is
a fixed-length (36 character) hex-encoded string. -/
def validSerial (s : String) : Bool :=
  s.length = 36 && s.toList.all isHexChar

/-- Modelled from the spec: `SelectPrecertificate` — point lookup of the
precertificates row by serial. -/
def selectPrecertificate (db : DB) (serial : String) : Option PrecertRecord :=
  db.precertificates.find? (fun p => p.serial = serial)

/-- The caller-facing certificate record (`corepb.Certificate`). -/
structure Certificate where
  registrationID : Int
  serial : String
  der : DER
  issued : Int
  expires : Int
deriving Repr, DecidableEq

/-- Modelled from the spec: `bgrpc.CertToPB` — translate the stored row
into the caller-facing representation, field for field. -/
def certToPB (p : PrecertRecord) : Certificate :=
  ⟨p.registrationID, p.serial, p.der, p.issued, p.expires⟩

/-- `GetPrecertificate` (lines 134-152).  The request is `none` for a nil
gRPC message; a nil request or an empty serial is an incomplete request,
a malformed serial is a validation error, a lookup miss is `notFound`,
and a hit returns the translated stored row. -/
def getPrecertificate (db : DB) (req : Option String) : Except Err Certificate :=
  match req with
  | none => .error .incompleteRequest
  | some s =>
      if s = "" then .error .incompleteRequest
      else if !validSerial s then .error (.invalidSerial s)
      else
        match selectPrecertificate db s with
        | none => .error (.notFound s)
        | some p => .ok (certToPB p)

/-- The state produced by a successful issuance transaction on `db`. -/
def issuanceResult (now : Int) (db : DB) (req : AddCertificateRequest)
    (parsed : ParsedCert) (s : String) : DB :=
  { db with
    precertificates := db.precertificates
      ++ [⟨s, req.regID, req.der, req.issued, parsed.notAfter⟩]
    certificateStatus := db.certificateStatus ++ [initialCertStatus now req parsed s]
    issuedNames := db.issuedNames
      ++ parsed.dnsNames.map
          (fun n => ⟨n, s, req.issued, checkFQDNSetExists db parsed.dnsNames⟩)
    keyHashes := db.keyHashes ++ [⟨keyFingerprint parsed, s, req.issued⟩]
    fqdnSets := db.fqdnSets ++ [parsed.dnsNames] }

/-- A concrete certificate used to exercise the definitions. -/
def sampleCert : ParsedCert := ⟨66, 1000, ["a.example", "b.example"], "a.example", [1, 2, 3]⟩

/-- A concrete well-formed issuance request for `sampleCert`. -/
def sampleReq : AddCertificateRequest := ⟨.wellFormed sampleCert, 7, [9], 5, 3⟩

/-- The serial string of `sampleCert`. -/
def sampleSerial : String := serialToString 66

/-- A second certificate with a distinct serial and the same name set up
to case, exercising renewal classification. -/
def sampleCert2 : ParsedCert := ⟨67, 2000, ["B.example", "a.example"], "", [4]⟩

/-- A well-formed issuance request for `sampleCert2`. -/
def sampleReq2 : AddCertificateRequest := ⟨.wellFormed sampleCert2, 7, [9], 6, 3⟩

/-- A fault environment that fails exactly the key-fingerprint insert. -/
def keyHashFault : TxFaults := ⟨none, none, none, none, none, some 7⟩

lemma dupCheckStep_error (f : Option Nat) (db : DB) (s : String) (e : Err)
    (h : dupCheckStep f db s = .error e) :
    (∃ c, f = some c ∧ e = .storage c) ∨ e = .duplicate "cannot add a duplicate cert" := by
  unfold dupCheckStep at h
  rcases f with _ | c
  · simp at h; split at h <;> simp_all
  · simp at h; simp [h]

lemma insertPrecertStep_error (f : Option Nat) (row : PrecertRecord) (db : DB) (e : Err)
    (h : insertPrecertStep f row db = .error e) :
    ∃ c, f = some c ∧ e = .storage c := by
  unfold insertPrecertStep at h
  rcases f with _ | c <;> simp_all

lemma insertCertStatusStep_error (f : Option Nat) (fields : List String)
    (row : CertStatusRecord) (db : DB) (e : Err)
    (h : insertCertStatusStep f fields row db = .error e) :
    (∃ c, f = some c ∧ e = .storage c)
    ∨ e = .schemaMismatch "too many arguments inserting row into certificateStatus" := by
  unfold insertCertStatusStep at h
  rcases f with _ | c
  · simp at h; split at h <;> simp_all
  · simp_all

lemma fqdnCheckStep_error (f : Option Nat) (db : DB) (names : List String) (e : Err)
    (h : fqdnCheckStep f db names = .error e) :
    ∃ c, f = some c ∧ e = .storage c := by
  unfold fqdnCheckStep at h
  rcases f with _ | c <;> simp_all

lemma addIssuedNamesStep_error (f : Option Nat) (parsed : ParsedCert) (s : String)
    (issued : Int) (r : Bool) (db : DB) (e : Err)
    (h : addIssuedNamesStep f parsed s issued r db = .error e) :
    ∃ c, f = some c ∧ e = .storage c := by
  unfold addIssuedNamesStep at h
  rcases f with _ | c <;> simp_all

lemma addKeyHashStep_error (f : Option Nat) (parsed : ParsedCert) (s : String)
    (issued : Int) (db : DB) (e : Err)
    (h : addKeyHashStep f parsed s issued db = .error e) :
    ∃ c, f = some c ∧ e = .storage c := by
  unfold addKeyHashStep at h
  rcases f with _ | c <;> simp_all

lemma tx_error_shape (now : Int) (req : AddCertificateRequest) (parsed : ParsedCert)
    (s : String) (f : TxFaults) (db : DB) (e : Err)
    (h : addPrecertificateTx now req parsed s f db = .error e) :
    e = .duplicate "cannot add a duplicate cert"
    ∨ (∃ c, e = .storage c ∧
        (f.selectCount = some c ∨ f.insertPrecert = some c ∨ f.insertStatus = some c
          ∨ f.fqdnCheck = some c ∨ f.insertNames = some c ∨ f.insertKeyHash = some c))
    ∨ e = .schemaMismatch "too many arguments inserting row into certificateStatus" := by
  unfold addPrecertificateTx at h
  rcases h1 : dupCheckStep f.selectCount db s with e1 | u <;>
    rw [h1] at h <;> dsimp only at h
  · obtain rfl : e1 = e := by simpa using h
    rcases dupCheckStep_error _ _ _ _ h1 with ⟨c, hc, he⟩ | he
    · exact Or.inr (Or.inl ⟨c, he, Or.inl hc⟩)
    · exact Or.inl he
  · rcases h2 : insertPrecertStep f.insertPrecert
        ⟨s, req.regID, req.der, req.issued, parsed.notAfter⟩ db with e2 | db1 <;>
      rw [h2] at h <;> dsimp only at h
    · obtain rfl : e2 = e := by simpa using h
      rcases insertPrecertStep_error _ _ _ _ h2 with ⟨c, hc, he⟩
      exact Or.inr (Or.inl ⟨c, he, Or.inr (Or.inl hc)⟩)
    · rcases h3 : insertCertStatusStep f.insertStatus certStatusFields
          (initialCertStatus now req parsed s) db1 with e3 | db2 <;>
        rw [h3] at h <;> dsimp only at h
      · obtain rfl : e3 = e := by simpa using h
        rcases insertCertStatusStep_error _ _ _ _ _ h3 with ⟨c, hc, he⟩ | he
        · exact Or.inr (Or.inl ⟨c, he, Or.inr (Or.inr (Or.inl hc))⟩)
        · exact Or.inr (Or.inr he)
      · rcases h4 : fqdnCheckStep f.fqdnCheck db2 parsed.dnsNames with e4 | r <;>
          rw [h4] at h <;> dsimp only at h
        · obtain rfl : e4 = e := by simpa using h
          rcases fqdnCheckStep_error _ _ _ _ h4 with ⟨c, hc, he⟩
          exact Or.inr (Or.inl ⟨c, he, Or.inr (Or.inr (Or.inr (Or.inl hc)))⟩)
        · rcases h5 : addIssuedNamesStep f.insertNames parsed s req.issued r db2
              with e5 | db3 <;> rw [h5] at h <;> dsimp only at h
          · obtain rfl : e5 = e := by simpa using h
            rcases addIssuedNamesStep_error _ _ _ _ _ _ _ h5 with ⟨c, hc, he⟩
            exact Or.inr (Or.inl ⟨c, he, Or.inr (Or.inr (Or.inr (Or.inr (Or.inl hc))))⟩)
          · rcases addKeyHashStep_error _ _ _ _ _ _ h with ⟨c, hc, he⟩
            exact Or.inr (Or.inl ⟨c, he, Or.inr (Or.inr (Or.inr (Or.inr (Or.inr hc))))⟩)

lemma addPrecertificate_error_shape (now : Int) (db : DB) (req : AddCertificateRequest)
    (f : TxFaults) (e : Err)
    (h : addPrecertificate now db req f = .error e) :
    e = .incompleteRequest ∨ e = .parseError req.der
    ∨ e = .duplicate "cannot add a duplicate cert"
    ∨ (∃ c, e = .storage c ∧
        (f.selectCount = some c ∨ f.insertPrecert = some c ∨ f.insertStatus = some c
          ∨ f.fqdnCheck = some c ∨ f.insertNames = some c ∨ f.insertKeyHash = some c))
    ∨ e = .schemaMismatch "too many arguments inserting row into certificateStatus" := by
  unfold addPrecertificate at h
  by_cases hz : (derIsZero req.der || intIsZero req.issued || intIsZero req.regID
      || intIsZero req.issuerID) = true
  · rw [if_pos hz] at h
    obtain rfl : Err.incompleteRequest = e := by simpa using h
    exact Or.inl rfl
  · rw [if_neg hz] at h
    rcases hp : parseCertificate req.der with _ | parsed <;> rw [hp] at h <;> dsimp only at h
    · obtain rfl : Err.parseError req.der = e := by simpa using h
      exact Or.inr (Or.inl rfl)
    · rcases tx_error_shape now req parsed (serialToString parsed.serialNumber) f db e h
        with h' | h' | h'
      · exact Or.inr (Or.inr (Or.inl h'))
      · exact Or.inr (Or.inr (Or.inr (Or.inl h')))
      · exact Or.inr (Or.inr (Or.inr (Or.inr h')))

lemma run_error_state (now : Int) (db : DB) (req : AddCertificateRequest)
    (f : TxFaults) (e : Err)
    (h : (addPrecertificateRun now db req f).1 = some e) :
    (addPrecertificateRun now db req f).2 = db := by
  unfold addPrecertificateRun at *
  rcases hr : addPrecertificate now db req f with e' | db' <;> simp [hr] at h ⊢

lemma run_error_shape (now : Int) (db : DB) (req : AddCertificateRequest)
    (f : TxFaults) (e : Err)
    (h : (addPrecertificateRun now db req f).1 = some e) :
    e = .incompleteRequest ∨ e = .parseError req.der
    ∨ e = .duplicate "cannot add a duplicate cert"
    ∨ (∃ c, e = .storage c ∧
        (f.selectCount = some c ∨ f.insertPrecert = some c ∨ f.insertStatus = some c
          ∨ f.fqdnCheck = some c ∨ f.insertNames = some c ∨ f.insertKeyHash = some c))
    ∨ e = .schemaMismatch "too many arguments inserting row into certificateStatus" := by
  unfold addPrecertificateRun at h
  rcases hr : addPrecertificate now db req f with e' | db' <;> rw [hr] at h <;> dsimp only at h
  · obtain rfl : e' = e := by simpa using h
    exact addPrecertificate_error_shape now db req f _ hr
  · simp at h

lemma dupCheckStep_ok (f : Option Nat) (db : DB) (s : String)
    (h : dupCheckStep f db s = .ok ()) :
    f = none ∧ countPrecerts db s = 0 := by
  unfold dupCheckStep at h
  rcases f with _ | c
  · simp at h; exact ⟨rfl, h⟩
  · simp at h

lemma insertPrecertStep_ok (f : Option Nat) (row : PrecertRecord) (db db' : DB)
    (h : insertPrecertStep f row db = .ok db') :
    f = none ∧ db' = { db with precertificates := db.precertificates ++ [row] } := by
  unfold insertPrecertStep at h
  rcases f with _ | c <;> simp_all

lemma insertCertStatusStep_ok (f : Option Nat) (fields : List String)
    (row : CertStatusRecord) (db db' : DB)
    (h : insertCertStatusStep f fields row db = .ok db') :
    f = none ∧ (certStatusArgs row).length ≤ fields.length
    ∧ db' = { db with certificateStatus := db.certificateStatus ++ [row] } := by
  unfold insertCertStatusStep at h
  rcases f with _ | c
  · simp at h; split at h <;> simp_all
  · simp at h

lemma fqdnCheckStep_ok (f : Option Nat) (db : DB) (names : List String) (r : Bool)
    (h : fqdnCheckStep f db names = .ok r) :
    f = none ∧ r = checkFQDNSetExists db names := by
  unfold fqdnCheckStep at h
  rcases f with _ | c <;> simp_all

lemma addIssuedNamesStep_ok (f : Option Nat) (parsed : ParsedCert) (s : String)
    (issued : Int) (r : Bool) (db db' : DB)
    (h : addIssuedNamesStep f parsed s issued r db = .ok db') :
    f = none ∧ db' = { db with
      issuedNames := db.issuedNames
        ++ parsed.dnsNames.map (fun n => ⟨n, s, issued, r⟩)
      fqdnSets := db.fqdnSets ++ [parsed.dnsNames] } := by
  unfold addIssuedNamesStep at h
  rcases f with _ | c <;> simp_all

lemma addKeyHashStep_ok (f : Option Nat) (parsed : ParsedCert) (s : String)
    (issued : Int) (db db' : DB)
    (h : addKeyHashStep f parsed s issued db = .ok db') :
    f = none ∧ db' = { db with
      keyHashes := db.keyHashes ++ [⟨keyFingerprint parsed, s, issued⟩] } := by
  unfold addKeyHashStep at h
  rcases f with _ | c <;> simp_all

lemma tx_ok_shape (now : Int) (req : AddCertificateRequest) (parsed : ParsedCert)
    (s : String) (f : TxFaults) (db db' : DB)
    (h : addPrecertificateTx now req parsed s f db = .ok db') :
    countPrecerts db s = 0 ∧ db' = issuanceResult now db req parsed s := by
  unfold addPrecertificateTx at h
  rcases h1 : dupCheckStep f.selectCount db s with e1 | u <;>
    rw [h1] at h <;> dsimp only at h
  · simp at h
  · obtain ⟨-, hcount⟩ := dupCheckStep_ok _ _ _ h1
    rcases h2 : insertPrecertStep f.insertPrecert
        ⟨s, req.regID, req.der, req.issued, parsed.notAfter⟩ db with e2 | db1 <;>
      rw [h2] at h <;> dsimp only at h
    · simp at h
    · obtain ⟨-, hdb1⟩ := insertPrecertStep_ok _ _ _ _ h2
      rcases h3 : insertCertStatusStep f.insertStatus certStatusFields
          (initialCertStatus now req parsed s) db1 with e3 | db2 <;>
        rw [h3] at h <;> dsimp only at h
      · simp at h
      · obtain ⟨-, -, hdb2⟩ := insertCertStatusStep_ok _ _ _ _ _ h3
        rcases h4 : fqdnCheckStep f.fqdnCheck db2 parsed.dnsNames with e4 | r <;>
          rw [h4] at h <;> dsimp only at h
        · simp at h
        · obtain ⟨-, hr⟩ := fqdnCheckStep_ok _ _ _ _ h4
          rcases h5 : addIssuedNamesStep f.insertNames parsed s req.issued r db2
              with e5 | db3 <;> rw [h5] at h <;> dsimp only at h
          · simp at h
          · obtain ⟨-, hdb3⟩ := addIssuedNamesStep_ok _ _ _ _ _ _ _ h5
            obtain ⟨-, hdb4⟩ := addKeyHashStep_ok _ _ _ _ _ _ h
            refine ⟨hcount, ?_⟩
            subst hdb1 hdb2 hdb3 hdb4 hr
            simp [issuanceResult, checkFQDNSetExists]

lemma run_ok_shape (now : Int) (db : DB) (req : AddCertificateRequest) (f : TxFaults)
    (h : (addPrecertificateRun now db req f).1 = none) :
    ∃ parsed, parseCertificate req.der = some parsed
      ∧ countPrecerts db (serialToString parsed.serialNumber) = 0
      ∧ (addPrecertificateRun now db req f).2
          = issuanceResult now db req parsed (serialToString parsed.serialNumber) := by
  unfold addPrecertificateRun at *
  rcases hr : addPrecertificate now db req f with e' | db' <;> rw [hr] at h <;> dsimp only at h ⊢
  · simp at h
  · unfold addPrecertificate at hr
    by_cases hz : (derIsZero req.der || intIsZero req.issued || intIsZero req.regID
        || intIsZero req.issuerID) = true
    · rw [if_pos hz] at hr; simp at hr
    · rw [if_neg hz] at hr
      rcases hp : parseCertificate req.der with _ | parsed <;> rw [hp] at hr <;> dsimp only at hr
      · simp at hr
      · obtain ⟨hcount, hdb⟩ := tx_ok_shape now req parsed _ f db db' hr
        exact ⟨parsed, rfl, hcount, hdb⟩

lemma complete_error_not_incomplete (now : Int) (db : DB) (req : AddCertificateRequest)
    (f : TxFaults) (e : Err)
    (hz : (derIsZero req.der || intIsZero req.issued || intIsZero req.regID
      || intIsZero req.issuerID) = false)
    (hr : addPrecertificate now db req f = .error e) :
    e ≠ .incompleteRequest := by
  unfold addPrecertificate at hr
  rw [if_neg (by simp [hz])] at hr
  rcases hp : parseCertificate req.der with _ | parsed <;> rw [hp] at hr <;> dsimp only at hr
  · have he : Err.parseError req.der = e := by simpa using hr
    rw [← he]; simp
  · rcases tx_error_shape now req parsed (serialToString parsed.serialNumber) f db e hr
      with h' | ⟨c, h', -⟩ | h' <;> simp [h']

/-- Claim C6: `AddSerial` fails with IncompleteRequest exactly when one of
serial, registrationID, created, expires is absent or zero-valued, and then
inserts nothing; when all four are present (and the storage layer raises no
fault) it inserts exactly one SerialRecord with those values and returns an
empty acknowledgement. -/
theorem addSerial_completeness_and_insert (db : DB) (req : AddSerialRequest)
    (fault : Option Nat) :
    ((addSerialRun db req fault).1 = some .incompleteRequest ↔
      (intIsZero req.created || intIsZero req.expires || strIsZero req.serial
        || intIsZero req.regID) = true)
    ∧ ((intIsZero req.created || intIsZero req.expires || strIsZero req.serial
        || intIsZero req.regID) = true →
          addSerialRun db req fault = (some .incompleteRequest, db))
    ∧ ((intIsZero req.created || intIsZero req.expires || strIsZero req.serial
        || intIsZero req.regID) = false → fault = none →
          addSerialRun db req fault
            = (none, { db with serials := db.serials
                ++ [⟨req.serial, req.regID, req.created, req.expires⟩] })) := by
  unfold addSerialRun addSerial
  by_cases hz : (intIsZero req.created || intIsZero req.expires || strIsZero req.serial
      || intIsZero req.regID) = true
  · simp [hz]
  · rw [if_neg hz]
    rcases fault with _ | c <;> simp_all

/-- Claim C6 witness: with all four fields present and no storage fault,
the call on the empty store acknowledges and records exactly that serial. -/
theorem addSerial_completeness_and_insert_witness :
    addSerialRun DB.empty ⟨"ab", 1, 2, 3⟩ none
      = (none, { DB.empty with serials := [⟨"ab", 1, 2, 3⟩] }) :=
  (addSerial_completeness_and_insert DB.empty ⟨"ab", 1, 2, 3⟩ none).2.2 (by decide) rfl

/-- Claim C9: a nil `GetPrecertificate` request returns IncompleteRequest
without dereferencing the request, identically to an empty serial string. -/
theorem getPrecertificate_nil_request (db : DB) :
    getPrecertificate db none = .error .incompleteRequest
    ∧ getPrecertificate db none = getPrecertificate db (some "") :=
  ⟨rfl, rfl⟩

/-- Claim C4 counterexample: a request whose OCSP blob is absent (empty)
but whose DER, issued time, registration ID and issuer ID are present does
not fail with IncompleteRequest — the call succeeds. -/
theorem addPrecertificate_missing_ocsp_accepted :
    bytesIsZero (AddCertificateRequest.mk (.wellFormed sampleCert) 7 [] 5 3).ocsp = true
    ∧ (addPrecertificateRun 11 DB.empty ⟨.wellFormed sampleCert, 7, [], 5, 3⟩ noFaults).1
        = none := by
  exact ⟨by decide, by decide⟩

/-- Claim C4 as amended: `AddPrecertificate` fails with IncompleteRequest
exactly when one of DER bytes, issuance timestamp, registration ID, or
issuer ID is absent or zero-valued (the OCSP blob is not checked), and in
that case it returns before parsing the DER or touching storage, leaving
the state unchanged. -/
theorem addPrecertificate_incomplete_iff (now : Int) (db : DB)
    (req : AddCertificateRequest) (f : TxFaults) :
    ((addPrecertificateRun now db req f).1 = some .incompleteRequest ↔
      (derIsZero req.der || intIsZero req.issued || intIsZero req.regID
        || intIsZero req.issuerID) = true)
    ∧ ((derIsZero req.der || intIsZero req.issued || intIsZero req.regID
        || intIsZero req.issuerID) = true →
          addPrecertificateRun now db req f = (some .incompleteRequest, db)) := by
  have hpos : (derIsZero req.der || intIsZero req.issued || intIsZero req.regID
      || intIsZero req.issuerID) = true →
      addPrecertificateRun now db req f = (some .incompleteRequest, db) := by
    intro hz
    unfold addPrecertificateRun addPrecertificate
    simp [hz]
  refine ⟨⟨?_, fun hz => by rw [hpos hz]⟩, hpos⟩
  intro h
  by_contra hz
  have hz' : (derIsZero req.der || intIsZero req.issued || intIsZero req.regID
      || intIsZero req.issuerID) = false := by simpa using hz
  unfold addPrecertificateRun at h
  rcases hr : addPrecertificate now db req f with e' | db' <;> rw [hr] at h <;> dsimp only at h
  · have he : e' = Err.incompleteRequest := by simpa using h
    exact complete_error_not_incomplete now db req f e' hz' hr he
  · simp at h

/-- Claim C4 witness: an all-zero request is rejected as incomplete with
the store untouched. -/
theorem addPrecertificate_incomplete_iff_witness :
    addPrecertificateRun 11 DB.empty ⟨.empty, 0, [], 0, 0⟩ noFaults
      = (some .incompleteRequest, DB.empty) :=
  (addPrecertificate_incomplete_iff 11 DB.empty ⟨.empty, 0, [], 0, 0⟩ noFaults).2 (by decide)

/-- Claim C5 counterexample: the empty byte string does not decode as a
certificate, yet `AddPrecertificate` rejects it with IncompleteRequest (the
nil-or-zero field check fires first), not with a parse error. -/
theorem addPrecertificate_empty_der_incomplete :
    parseCertificate (AddCertificateRequest.mk .empty 7 [9] 5 3).der = none
    ∧ addPrecertificateRun 11 DB.empty ⟨.empty, 7, [9], 5, 3⟩ noFaults
        = (some .incompleteRequest, DB.empty)
    ∧ Err.incompleteRequest ≠ Err.parseError .empty := by
  exact ⟨by decide, by decide, by decide⟩

/-- Claim C5 as amended: for every request that passes the completeness
check (nonempty DER, nonzero issued time, registration ID, issuer ID) and
whose DER bytes do not decode as a valid certificate, `AddPrecertificate`
fails with the parse error before the transaction begins, and no row of
any table is left behind (the state is unchanged). -/
theorem addPrecertificate_parse_failure (now : Int) (db : DB)
    (req : AddCertificateRequest) (f : TxFaults)
    (hz : (derIsZero req.der || intIsZero req.issued || intIsZero req.regID
      || intIsZero req.issuerID) = false)
    (hp : parseCertificate req.der = none) :
    addPrecertificateRun now db req f = (some (.parseError req.der), db) := by
  unfold addPrecertificateRun addPrecertificate
  simp [hz, hp]

/-- Claim C5 witness: a concrete malformed, nonempty DER is rejected with
the parse error and the empty store stays empty. -/
theorem addPrecertificate_parse_failure_witness :
    addPrecertificateRun 11 DB.empty ⟨.malformed 3, 7, [9], 5, 3⟩ noFaults
      = (some (.parseError (.malformed 3)), DB.empty) :=
  addPrecertificate_parse_failure 11 DB.empty ⟨.malformed 3, 7, [9], 5, 3⟩ noFaults
    (by decide) (by decide)

lemma tx_success (now : Int) (req : AddCertificateRequest) (parsed : ParsedCert)
    (s : String) (db : DB) (hcount : countPrecerts db s = 0) :
    addPrecertificateTx now req parsed s noFaults db
      = .ok (issuanceResult now db req parsed s) := by
  simp [addPrecertificateTx, noFaults, dupCheckStep, hcount, insertPrecertStep,
    insertCertStatusStep, certStatusArgs, certStatusFields, fqdnCheckStep,
    addIssuedNamesStep, addKeyHashStep, issuanceResult, checkFQDNSetExists]

lemma addPrecertificate_success (now : Int) (db : DB) (req : AddCertificateRequest)
    (parsed : ParsedCert)
    (hz : (derIsZero req.der || intIsZero req.issued || intIsZero req.regID
            || intIsZero req.issuerID) = false)
    (hp : parseCertificate req.der = some parsed)
    (hcount : countPrecerts db (serialToString parsed.serialNumber) = 0) :
    addPrecertificateRun now db req noFaults
      = (none, issuanceResult now db req parsed (serialToString parsed.serialNumber)) := by
  simp [addPrecertificateRun, addPrecertificate, hz, hp,
    tx_success now req parsed _ db hcount]

/-- Claim C1: the issuance is all-or-nothing.  Whenever any step fails —
an incomplete request, a parse failure, the duplicate check, or an
injected storage fault at any of the six transaction steps — the state is
unchanged (no Precertificate, CertificateStatusRecord, IssuedNameRecord or
KeyFingerprintRecord row persists) and the original error of the failing
step is returned unchanged; on success the returned error is empty and
every one of those rows exists for the certificate's serial. -/
theorem addPrecertificate_atomicity (now : Int) (db : DB)
    (req : AddCertificateRequest) (f : TxFaults) :
    (∀ e, (addPrecertificateRun now db req f).1 = some e →
      (addPrecertificateRun now db req f).2 = db
      ∧ (e = .incompleteRequest ∨ e = .parseError req.der
         ∨ e = .duplicate "cannot add a duplicate cert"
         ∨ (∃ c, e = .storage c ∧
             (f.selectCount = some c ∨ f.insertPrecert = some c
               ∨ f.insertStatus = some c ∨ f.fqdnCheck = some c
               ∨ f.insertNames = some c ∨ f.insertKeyHash = some c))
         ∨ e = .schemaMismatch "too many arguments inserting row into certificateStatus"))
    ∧ ((addPrecertificateRun now db req f).1 = none →
      ∃ parsed, parseCertificate req.der = some parsed ∧
        ((∃ p ∈ (addPrecertificateRun now db req f).2.precertificates,
            p.serial = serialToString parsed.serialNumber)
         ∧ (∃ st ∈ (addPrecertificateRun now db req f).2.certificateStatus,
            st.serial = serialToString parsed.serialNumber)
         ∧ (∀ n ∈ parsed.dnsNames,
            ∃ r ∈ (addPrecertificateRun now db req f).2.issuedNames,
              r.name = n ∧ r.serial = serialToString parsed.serialNumber)
         ∧ (∃ k ∈ (addPrecertificateRun now db req f).2.keyHashes,
            k.serial = serialToString parsed.serialNumber))) := by
  constructor
  · intro e h
    exact ⟨run_error_state now db req f e h, run_error_shape now db req f e h⟩
  · intro h
    obtain ⟨parsed, hp, hcount, hdb⟩ := run_ok_shape now db req f h
    refine ⟨parsed, hp, ?_, ?_, ?_, ?_⟩ <;> rw [hdb] <;> unfold issuanceResult
    · exact ⟨_, List.mem_append_right _ (List.mem_singleton.mpr rfl), rfl⟩
    · exact ⟨_, List.mem_append_right _ (List.mem_singleton.mpr rfl), rfl⟩
    · intro n hn
      exact ⟨⟨n, serialToString parsed.serialNumber, req.issued,
          checkFQDNSetExists db parsed.dnsNames⟩,
        List.mem_append_right _ (List.mem_map_of_mem _ hn), rfl, rfl⟩
    · exact ⟨_, List.mem_append_right _ (List.mem_singleton.mpr rfl), rfl⟩

/-- Claim C1 witness: with a storage fault injected at the
key-fingerprint step, the call on the empty store fails with exactly that
fault and leaves the store empty. -/
theorem addPrecertificate_atomicity_witness :
    (addPrecertificateRun 11 DB.empty sampleReq keyHashFault).2 = DB.empty :=
  ((addPrecertificate_atomicity 11 DB.empty sampleReq keyHashFault).1
    (.storage 7) (by decide)).1

/-- Claim C2: whenever a precertificates row with the certificate's serial
already exists, `AddPrecertificate` aborts with the Duplicate error
"cannot add a duplicate cert" and inserts nothing; in particular, calling
it twice with the same valid DER succeeds the first time and fails with
Duplicate the second time, with the state after the second call identical
to the state after the first (no duplicate IssuedNameRecord or
KeyFingerprintRecord rows). -/
theorem addPrecertificate_duplicate_rejection (now now2 : Int) (db : DB)
    (req : AddCertificateRequest) (parsed : ParsedCert)
    (hz : (derIsZero req.der || intIsZero req.issued || intIsZero req.regID
      || intIsZero req.issuerID) = false)
    (hp : parseCertificate req.der = some parsed) :
    (0 < countPrecerts db (serialToString parsed.serialNumber) →
      addPrecertificateRun now db req noFaults
        = (some (.duplicate "cannot add a duplicate cert"), db))
    ∧ (countPrecerts db (serialToString parsed.serialNumber) = 0 →
      (addPrecertificateRun now db req noFaults).1 = none
      ∧ addPrecertificateRun now2 (addPrecertificateRun now db req noFaults).2 req noFaults
          = (some (.duplicate "cannot add a duplicate cert"),
             (addPrecertificateRun now db req noFaults).2)) := by
  have hdup : ∀ (t : Int) (d : DB), 0 < countPrecerts d (serialToString parsed.serialNumber) →
      addPrecertificateRun t d req noFaults
        = (some (.duplicate "cannot add a duplicate cert"), d) := by
    intro t d hgt
    unfold addPrecertificateRun addPrecertificate addPrecertificateTx dupCheckStep
    simp [hz, hp, noFaults, hgt]
  refine ⟨hdup now db, ?_⟩
  intro hcount
  have h1 := addPrecertificate_success now db req parsed hz hp hcount
  rw [h1]
  refine ⟨rfl, ?_⟩
  apply hdup
  unfold issuanceResult countPrecerts
  simp [countPrecerts] at hcount ⊢

/-- Claim C2 witness: issuing `sampleReq` twice on the empty store
succeeds, then fails with the Duplicate error leaving the state of the
first call intact. -/
theorem addPrecertificate_duplicate_rejection_witness :
    (addPrecertificateRun 11 DB.empty sampleReq noFaults).1 = none
    ∧ addPrecertificateRun 12 (addPrecertificateRun 11 DB.empty sampleReq noFaults).2
        sampleReq noFaults
      = (some (.duplicate "cannot add a duplicate cert"),
         (addPrecertificateRun 11 DB.empty sampleReq noFaults).2) :=
  (addPrecertificate_duplicate_rejection 11 12 DB.empty sampleReq sampleCert
    (by decide) (by decide)).2 (by decide)

lemma eqNameSets_iff (a b : List String) :
    eqNameSets a b = true ↔ ∀ x, x ∈ a ↔ x ∈ b := by
  simp only [eqNameSets, Bool.and_eq_true, List.all_eq_true, List.elem_iff]
  constructor
  · rintro ⟨h1, h2⟩ x
    exact ⟨fun hx => h1 x hx, fun hx => h2 x hx⟩
  · intro h
    exact ⟨fun x hx => (h x).mp hx, fun x hx => (h x).mpr hx⟩

lemma checkFQDNSetExists_iff (db : DB) (names : List String) :
    checkFQDNSetExists db names = true ↔
      ∃ prior ∈ db.fqdnSets,
        ∀ x, x ∈ lowerNames prior ↔ x ∈ lowerNames names := by
  simp only [checkFQDNSetExists, List.any_eq_true, eqNameSets_iff]

/-- Claim C3: renewal classification is computed from only the DNS
subject-alternative names — changing the Subject Common Name changes no
renewal flag — and a successful issuance stores, in every IssuedNameRecord
it creates, `isRenewal = true` exactly when some prior issuance's recorded
name set equals the current DNS-name set compared case-insensitively. -/
theorem addPrecertificate_renewal_classification (now : Int) (db : DB)
    (req : AddCertificateRequest) (parsed : ParsedCert)
    (hz : (derIsZero req.der || intIsZero req.issued || intIsZero req.regID
      || intIsZero req.issuerID) = false)
    (hp : parseCertificate req.der = some parsed)
    (hcount : countPrecerts db (serialToString parsed.serialNumber) = 0) :
    ((addPrecertificateRun now db req noFaults).2.issuedNames
      = db.issuedNames ++ parsed.dnsNames.map
          (fun n => ⟨n, serialToString parsed.serialNumber, req.issued,
                     checkFQDNSetExists db parsed.dnsNames⟩))
    ∧ (checkFQDNSetExists db parsed.dnsNames = true ↔
        ∃ prior ∈ db.fqdnSets,
          ∀ x, x ∈ lowerNames prior ↔ x ∈ lowerNames parsed.dnsNames)
    ∧ (∀ cn : String,
        ((addPrecertificateRun now db
            ⟨.wellFormed { parsed with commonName := cn }, req.regID, req.ocsp,
             req.issued, req.issuerID⟩ noFaults).2.issuedNames.map
          IssuedNameRecord.isRenewal)
          = ((addPrecertificateRun now db req noFaults).2.issuedNames.map
              IssuedNameRecord.isRenewal)) := by
  have h1 := addPrecertificate_success now db req parsed hz hp hcount
  refine ⟨by rw [h1]; rfl, checkFQDNSetExists_iff db parsed.dnsNames, ?_⟩
  intro cn
  have hd : intIsZero req.issuerID = false := (Bool.or_eq_false_iff.mp hz).2
  have hab := (Bool.or_eq_false_iff.mp hz).1
  have hc : intIsZero req.regID = false := (Bool.or_eq_false_iff.mp hab).2
  have hb : intIsZero req.issued = false :=
    (Bool.or_eq_false_iff.mp (Bool.or_eq_false_iff.mp hab).1).2
  have hz2 : (derIsZero (DER.wellFormed { parsed with commonName := cn })
      || intIsZero req.issued || intIsZero req.regID || intIsZero req.issuerID) = false := by
    simp [derIsZero, hb, hc, hd]
  have h2 := addPrecertificate_success now db
    ⟨.wellFormed { parsed with commonName := cn }, req.regID, req.ocsp,
     req.issued, req.issuerID⟩ { parsed with commonName := cn } hz2 rfl hcount
  rw [h1, h2]
  rfl

/-- Claim C3 witness: on the empty store the first issuance for
`{a.example, b.example}` stores `isRenewal = false` on both rows, and
no prior name set matches. -/
theorem addPrecertificate_renewal_classification_witness :
    (addPrecertificateRun 11 DB.empty sampleReq noFaults).2.issuedNames
      = [⟨"a.example", sampleSerial, 5, false⟩, ⟨"b.example", sampleSerial, 5, false⟩] := by
  have h := (addPrecertificate_renewal_classification 11 DB.empty sampleReq sampleCert
    (by decide) (by decide) (by decide)).1
  rw [h]
  decide

lemma find?_append_of_none (l1 l2 : List PrecertRecord) (p : PrecertRecord → Bool)
    (h : l1.find? p = none) : (l1 ++ l2).find? p = l2.find? p := by
  induction l1 with
  | nil => rfl
  | cons a l ih =>
    rw [List.cons_append]
    cases hpa : p a with
    | true => simp [List.find?, hpa] at h
    | false =>
      simp only [List.find?, hpa] at h ⊢
      exact ih h

lemma find?_none_of_count_zero (db : DB) (s : String)
    (h : countPrecerts db s = 0) :
    db.precertificates.find? (fun p => p.serial = s) = none := by
  rw [List.find?_eq_none]
  intro p hp
  unfold countPrecerts at h
  rw [List.length_eq_zero, List.filter_eq_nil_iff] at h
  exact fun hs => h p hp hs

/-- Claim C7: `GetPrecertificate` case analysis — empty serial is an
incomplete request and malformed serial a validation error, both decided
with no storage access (the state is not consulted); a well-formed but
unknown serial is NotFound; and a well-formed serial recorded by a
successful `AddPrecertificate` returns exactly the recorded DER bytes,
registration ID, issued time, and expiry. -/
theorem getPrecertificate_case_analysis :
    (∀ db : DB, getPrecertificate db (some "") = .error .incompleteRequest)
    ∧ (∀ (db : DB) (s : String), s ≠ "" → validSerial s = false →
        getPrecertificate db (some s) = .error (.invalidSerial s))
    ∧ (∀ (db : DB) (s : String), validSerial s = true →
        selectPrecertificate db s = none →
        getPrecertificate db (some s) = .error (.notFound s))
    ∧ (∀ (now : Int) (db : DB) (req : AddCertificateRequest) (parsed : ParsedCert),
        (derIsZero req.der || intIsZero req.issued || intIsZero req.regID
          || intIsZero req.issuerID) = false →
        parseCertificate req.der = some parsed →
        countPrecerts db (serialToString parsed.serialNumber) = 0 →
        validSerial (serialToString parsed.serialNumber) = true →
        getPrecertificate (addPrecertificateRun now db req noFaults).2
            (some (serialToString parsed.serialNumber))
          = .ok ⟨req.regID, serialToString parsed.serialNumber, req.der,
                 req.issued, parsed.notAfter⟩) := by
  refine ⟨fun db => rfl, ?_, ?_, ?_⟩
  · intro db s hne hbad
    unfold getPrecertificate
    dsimp only
    rw [if_neg hne, if_pos (by simp [hbad])]
  · intro db s hval hnone
    unfold getPrecertificate
    dsimp only
    have hne : s ≠ "" := by
      intro he; rw [he] at hval; exact absurd hval (by decide)
    rw [if_neg hne, if_neg (by simp [hval]), hnone]
  · intro now db req parsed hz hp hcount hval
    have h1 := addPrecertificate_success now db req parsed hz hp hcount
    rw [h1]
    unfold getPrecertificate
    dsimp only
    have hne : serialToString parsed.serialNumber ≠ "" := by
      intro he; rw [he] at hval; exact absurd hval (by decide)
    rw [if_neg hne, if_neg (by simp [hval])]
    have hsel : selectPrecertificate
        (issuanceResult now db req parsed (serialToString parsed.serialNumber))
        (serialToString parsed.serialNumber)
      = some ⟨serialToString parsed.serialNumber, req.regID, req.der,
              req.issued, parsed.notAfter⟩ := by
      unfold selectPrecertificate issuanceResult
      rw [find?_append_of_none _ _ _ (find?_none_of_count_zero db _ hcount)]
      simp [List.find?]
    rw [hsel]
    rfl

/-- Claim C7 witness: on the store produced by issuing `sampleReq`, the
lookup by `sampleSerial` returns exactly the recorded certificate. -/
theorem getPrecertificate_case_analysis_witness :
    getPrecertificate (addPrecertificateRun 11 DB.empty sampleReq noFaults).2
        (some sampleSerial)
      = .ok ⟨7, sampleSerial, .wellFormed sampleCert, 5, 1000⟩ :=
  getPrecertificate_case_analysis.2.2.2 11 DB.empty sampleReq sampleCert
    (by decide) (by decide) (by decide) (by decide)

/-- Claim C8: every successful issuance seeds exactly one
certificateStatus row with the fixed initial state — status good,
revocation fields zeroed, not expired, the supplied OCSP blob and issuer
ID, the parsed certificate's not-after time — and the insert step fails
immediately with the internal schema-mismatch error whenever the candidate
value map has more keys than the schema's column set. -/
theorem addPrecertificate_status_row_seed (now : Int) (db : DB)
    (req : AddCertificateRequest) (parsed : ParsedCert)
    (hz : (derIsZero req.der || intIsZero req.issued || intIsZero req.regID
      || intIsZero req.issuerID) = false)
    (hp : parseCertificate req.der = some parsed)
    (hcount : countPrecerts db (serialToString parsed.serialNumber) = 0) :
    ((addPrecertificateRun now db req noFaults).2.certificateStatus
      = db.certificateStatus
        ++ [{ serial := serialToString parsed.serialNumber, status := "good",
              ocspLastUpdated := now, revokedDate := 0, revokedReason := 0,
              lastExpirationNagSent := 0, ocspResponse := req.ocsp,
              notAfter := parsed.notAfter, isExpired := false,
              issuerID := req.issuerID }])
    ∧ (∀ (fields : List String) (row : CertStatusRecord) (db0 : DB),
        (certStatusArgs row).length > fields.length →
        insertCertStatusStep none fields row db0
          = .error (.schemaMismatch
              "too many arguments inserting row into certificateStatus")) := by
  constructor
  · rw [addPrecertificate_success now db req parsed hz hp hcount]
    rfl
  · intro fields row db0 hlen
    unfold insertCertStatusStep
    simp [hlen]

/-- Claim C8 witness: the issuance of `sampleReq` on the empty store seeds
exactly the fixed initial status row, and an empty schema column set makes
the insert step fail with the schema-mismatch error. -/
theorem addPrecertificate_status_row_seed_witness :
    (addPrecertificateRun 11 DB.empty sampleReq noFaults).2.certificateStatus
      = [{ serial := sampleSerial, status := "good", ocspLastUpdated := 11,
           revokedDate := 0, revokedReason := 0, lastExpirationNagSent := 0,
           ocspResponse := [9], notAfter := 1000, isExpired := false, issuerID := 3 }]
    ∧ insertCertStatusStep none [] (initialCertStatus 11 sampleReq sampleCert sampleSerial)
        DB.empty
      = .error (.schemaMismatch "too many arguments inserting row into certificateStatus") :=
  ⟨(addPrecertificate_status_row_seed 11 DB.empty sampleReq sampleCert
      (by decide) (by decide) (by decide)).1,
   (addPrecertificate_status_row_seed 11 DB.empty sampleReq sampleCert
      (by decide) (by decide) (by decide)).2 []
      (initialCertStatus 11 sampleReq sampleCert sampleSerial) DB.empty (by decide)⟩

/-- Claim C10: the seeded status row's `ocspLastUpdated` comes from the
store's clock at call time, not from the caller-supplied issuance
timestamp: every status row created by a successful call carries the
clock's now, and in the concrete run with clock 11 and issued time 5 the
status row's `ocspLastUpdated` differs from the stored precertificate's
issued time. -/
theorem status_ocspLastUpdated_from_clock (now : Int) (db : DB)
    (req : AddCertificateRequest) (parsed : ParsedCert)
    (hz : (derIsZero req.der || intIsZero req.issued || intIsZero req.regID
      || intIsZero req.issuerID) = false)
    (hp : parseCertificate req.der = some parsed)
    (hcount : countPrecerts db (serialToString parsed.serialNumber) = 0) :
    (∀ r ∈ (addPrecertificateRun now db req noFaults).2.certificateStatus,
        r ∉ db.certificateStatus → r.ocspLastUpdated = now)
    ∧ ((addPrecertificateRun 11 DB.empty sampleReq noFaults).2.certificateStatus.map
          CertStatusRecord.ocspLastUpdated = [11]
       ∧ (addPrecertificateRun 11 DB.empty sampleReq noFaults).2.precertificates.map
          PrecertRecord.issued = [5]
       ∧ (11 : Int) ≠ 5) := by
  refine ⟨?_, by decide, by decide, by decide⟩
  intro r hr hnotold
  rw [addPrecertificate_success now db req parsed hz hp hcount] at hr
  rcases List.mem_append.mp hr with hold | hnew
  · exact absurd hold hnotold
  · rw [List.mem_singleton.mp hnew]
    rfl

/-- Claim C10 witness: in the concrete successful run the single status
row carries the clock value 11 while the precertificate's issued time is
the caller-supplied 5. -/
theorem status_ocspLastUpdated_from_clock_witness :
    (addPrecertificateRun 11 DB.empty sampleReq noFaults).2.certificateStatus.map
        CertStatusRecord.ocspLastUpdated = [11]
    ∧ (11 : Int) ≠ 5 :=
  ⟨(status_ocspLastUpdated_from_clock 11 DB.empty sampleReq sampleCert
      (by decide) (by decide) (by decide)).2.1,
   (status_ocspLastUpdated_from_clock 11 DB.empty sampleReq sampleCert
      (by decide) (by decide) (by decide)).2.2.2⟩
